import Mathlib

/-!
Shallow embedding of the One_way_Passage_control backend
(src/unnamed/part_001, the full server with SSE broadcasting and the
Firebase gate sync; src/backend/Server.js is an earlier copy of the same
handlers without the broadcast/Firebase layer).

Modelling conventions:
* JS timestamps (`new Date().toISOString()`) are modelled as a `Nat`
  parameter `now` passed to each handler.
* Numeric JSON payload values are modelled as `Int`; JS truthiness of a
  number is `v ≠ 0`, of a string is `s ≠ ""`, of `undefined` is false.
* A `setTimeout` callback captures the light objects by reference and runs
  against the state current at fire time; it is modelled as a `Pending`
  token recorded by the handler plus a pure `runPending` function applied
  to whatever `Lights` value holds when the timer fires.
* Calls to `broadcastStateUpdate reason` made by a handler are recorded as
  a list of reason strings; calls to `updateFirebaseGateState` are recorded
  as a list of `(lightId, isGreen)` pairs.  The SSE fan-out itself
  (`broadcastStateUpdate`'s body) is modelled separately for the hub-level
  claims.
-/

/-- The three light phases: 'red', 'yellow', 'green' (part_001 line 19). -/
inductive LightPhase where
  | red
  | yellow
  | green
deriving DecidableEq, Repr

/-- The two keys of the `trafficLights` object (part_001 lines 15-30). -/
inductive LightId where
  | light1
  | light2
deriving DecidableEq, Repr

/-- One entry of `trafficLights`: the mutable `state` and `lastUpdated`
fields plus the constant `direction` field ('inbound'/'outbound'); the
constant `id`/`name` fields are determined by the key and omitted. -/
structure Light where
  state : LightPhase
  direction : String
  lastUpdated : Nat
deriving DecidableEq, Repr

/-- The `trafficLights` record: exactly the two lights. -/
structure Lights where
  light1 : Light
  light2 : Light
deriving DecidableEq, Repr

def Lights.get (L : Lights) : LightId → Light
  | .light1 => L.light1
  | .light2 => L.light2

def Lights.set (L : Lights) : LightId → Light → Lights
  | .light1, l => { L with light1 := l }
  | .light2, l => { L with light2 := l }

/-- The expression choosing the other light id (part_001 line 415). -/
def LightId.other : LightId → LightId
  | .light1 => .light2
  | .light2 => .light1

def LightId.str : LightId → String
  | .light1 => "light1"
  | .light2 => "light2"

/-- Key lookup into `trafficLights`: the object has exactly the keys
`light1` and `light2`. -/
def lookupLight (s : String) : Option LightId :=
  if s = "light1" then some .light1
  else if s = "light2" then some .light2
  else none

/-- The `trafficFlow` record (part_001 lines 33-37). -/
structure TrafficFlow where
  mode : String
  currentDirection : String
  lastChanged : Nat
deriving DecidableEq, Repr

/-- The `firebaseGateMirror` record (part_001 lines 69-72). -/
structure GateMirror where
  light1 : Bool
  light2 : Bool
deriving DecidableEq, Repr

def GateMirror.set (M : GateMirror) : LightId → Bool → GateMirror
  | .light1, b => { M with light1 := b }
  | .light2, b => { M with light2 := b }

/-- A scheduled `setTimeout` completion, one constructor per closure in the
source: the `action === 'green'` body (lines 429-441), the
`action === 'red'` body (lines 447-452), the toggle-from-green body
(lines 462-467), the toggle-from-red body (lines 479-491), and the
traffic-flow body (lines 523-531). -/
inductive Pending where
  | toGreen (lid : LightId) (lidStr otherStr : String)
  | toRed (lid : LightId) (lidStr : String)
  | toggleToRed (lid : LightId) (lidStr : String)
  | toggleToGreen (lid : LightId) (lidStr otherStr : String)
  | flowGreen (direction : String)
deriving DecidableEq, Repr

/-- Outcome of an immediate handler step: mutated lights, the
`broadcastStateUpdate` reasons emitted, the `updateFirebaseGateState`
calls made, and the `setTimeout` completions scheduled. -/
structure HandlerResult where
  lights : Lights
  broadcasts : List String
  pushes : List (String × Bool)
  pending : List Pending
deriving DecidableEq, Repr

/-- Outcome of a fired `setTimeout` completion. -/
structure CompletionResult where
  lights : Lights
  broadcasts : List String
  pushes : List (String × Bool)
deriving DecidableEq, Repr

/-- The body of each `setTimeout` closure, applied to the lights state
current when the timer fires (the closures capture the light objects by
reference). -/
def runPending (p : Pending) (now : Nat) (L : Lights) : CompletionResult :=
  match p with
  | .toGreen lid lidStr otherStr =>
      -- part_001 lines 429-441
      let L1 := L.set lid { L.get lid with state := .green, lastUpdated := now }
      let L2 :=
        if (L1.get lid.other).state ≠ .red then
          L1.set lid.other { L1.get lid.other with state := .red, lastUpdated := now }
        else L1
      { lights := L2
        broadcasts := ["control:" ++ lidStr ++ ":green"]
        pushes := [(lidStr, true), (otherStr, false)] }
  | .toRed lid lidStr =>
      -- part_001 lines 447-452
      let L1 := L.set lid { L.get lid with state := .red, lastUpdated := now }
      { lights := L1
        broadcasts := ["control:" ++ lidStr ++ ":red"]
        pushes := [(lidStr, false)] }
  | .toggleToRed lid lidStr =>
      -- part_001 lines 462-467
      let L1 := L.set lid { L.get lid with state := .red, lastUpdated := now }
      { lights := L1
        broadcasts := ["control:" ++ lidStr ++ ":red"]
        pushes := [(lidStr, false)] }
  | .toggleToGreen lid lidStr otherStr =>
      -- part_001 lines 479-491
      let L1 := L.set lid { L.get lid with state := .green, lastUpdated := now }
      let L2 :=
        if (L1.get lid.other).state ≠ .red then
          L1.set lid.other { L1.get lid.other with state := .red, lastUpdated := now }
        else L1
      { lights := L2
        broadcasts := ["control:" ++ lidStr ++ ":green"]
        pushes := [(lidStr, true), (otherStr, false)] }
  | .flowGreen direction =>
      -- part_001 lines 523-531
      let L1 := { L with
        light1 := { L.light1 with state := .green, lastUpdated := now }
        light2 := { L.light2 with state := .green, lastUpdated := now } }
      { lights := L1
        broadcasts := ["traffic-flow:" ++ direction]
        pushes := [("light1", true), ("light2", true)] }

/-- Handler body of `app.post` for `/api/lights/:lightId/control` (part_001
lines 405-503), after the 404 existence check resolved `lightId` to `lid`:
the immediate mutations, the broadcasts/pushes made before responding, and
the scheduled completions.  The HTTP response body is
`{ lights: trafficLights, trafficFlow }` serialized from the returned
`lights` (trafficFlow is untouched by this handler). -/
def controlLightOn (lid : LightId) (lightIdStr action : String) (now : Nat)
    (L : Lights) : HandlerResult :=
    let otherLightId := lid.other
    if action = "green" then
      -- transition through yellow first (lines 418-442)
      let L1 := L.set lid { L.get lid with state := .yellow, lastUpdated := now }
      let L2 :=
        if (L1.get otherLightId).state = .green then
          L1.set otherLightId
            { L1.get otherLightId with state := .yellow, lastUpdated := now }
        else L1
      { lights := L2
        broadcasts := ["control:" ++ lightIdStr ++ ":yellow"]
        pushes := []
        pending := [.toGreen lid lightIdStr otherLightId.str] }
    else if action = "red" then
      -- lines 443-453
      let L1 := L.set lid { L.get lid with state := .yellow, lastUpdated := now }
      { lights := L1
        broadcasts := ["control:" ++ lightIdStr ++ ":yellow"]
        pushes := []
        pending := [.toRed lid lightIdStr] }
    else if action = "yellow" then
      -- lines 454-457
      let L1 := L.set lid { L.get lid with state := .yellow, lastUpdated := now }
      { lights := L1
        broadcasts := ["control:" ++ lightIdStr ++ ":yellow"]
        pushes := []
        pending := [] }
    else if action = "toggle" then
      -- lines 458-499
      if (L.get lid).state = .green then
        let L1 := L.set lid { L.get lid with state := .yellow, lastUpdated := now }
        { lights := L1
          broadcasts := ["control:" ++ lightIdStr ++ ":yellow"]
          pushes := []
          pending := [.toggleToRed lid lightIdStr] }
      else if (L.get lid).state = .red then
        let L1 := L.set lid { L.get lid with state := .yellow, lastUpdated := now }
        let L2 :=
          if (L1.get otherLightId).state = .green then
            L1.set otherLightId
              { L1.get otherLightId with state := .yellow, lastUpdated := now }
          else L1
        { lights := L2
          broadcasts := ["control:" ++ lightIdStr ++ ":yellow"]
          pushes := []
          pending := [.toggleToGreen lid lightIdStr otherLightId.str] }
      else
        -- if yellow, go to red immediately (lines 493-499)
        let L1 := L.set lid { L.get lid with state := .red, lastUpdated := now }
        { lights := L1
          broadcasts := ["control:" ++ lightIdStr ++ ":red"]
          pushes := [(lightIdStr, false)]
          pending := [] }
    else
      -- unrecognized action: no mutation, still responds 200
      { lights := L, broadcasts := [], pushes := [], pending := [] }

/-- The 404 dispatch of the control handler: `if (!trafficLights[lightId])`
returns the error response (`none`), otherwise the branch body runs. -/
def controlLight (lightIdStr action : String) (now : Nat) (L : Lights) :
    Option HandlerResult :=
  match lookupLight lightIdStr with
  | none => none
  | some lid => some (controlLightOn lid lightIdStr action now L)


/-- Outcome of the traffic-flow handler. -/
structure FlowResult where
  flow : TrafficFlow
  lights : Lights
  broadcasts : List String
  pending : List Pending
deriving DecidableEq, Repr

/-- Handler `app.post` for `/api/traffic-flow` (part_001 lines 506-536).  `mode` and
`direction` come from `req.body`, each possibly absent; the `if (mode)` /
`if (direction)` guards are JS truthiness on strings (absent or empty
string is falsy). -/
def trafficFlowHandler (mode direction : Option String) (now : Nat)
    (F : TrafficFlow) (L : Lights) : FlowResult :=
  let F1 :=
    match mode with
    | some m => if m = "" then F else { F with mode := m }
    | none => F
  match direction with
  | some d =>
    if d = "" then { flow := F1, lights := L, broadcasts := [], pending := [] }
    else
      let F2 := { F1 with currentDirection := d, lastChanged := now }
      let L1 := { L with
        light1 := { L.light1 with state := .yellow, lastUpdated := now }
        light2 := { L.light2 with state := .yellow, lastUpdated := now } }
      { flow := F2
        lights := L1
        broadcasts := ["traffic-flow:yellow-phase"]
        pending := [.flowGreen d] }
  | none => { flow := F1, lights := L, broadcasts := [], pending := [] }

/-- Function `booleanToLightState` (part_001 lines 262-264). -/
def booleanToLightState (value : Bool) : LightPhase :=
  if value then .green else .red

/-- Function `gateKeyToLightId` (part_001 lines 256-260). -/
def gateKeyToLightId (gateKey : String) : Option String :=
  if gateKey = "gate1" ∨ gateKey = "light1" then some "light1"
  else if gateKey = "gate2" ∨ gateKey = "light2" then some "light2"
  else none

/-- One iteration of the `Object.entries(firebaseStates).forEach` body in
`applyFirebaseGateStates` (part_001 lines 320-331); the accumulator is
(lights, mirror, stateChanged). -/
def applyGateEntry (now : Nat) (acc : Lights × GateMirror × Bool)
    (entry : String × Bool) : Lights × GateMirror × Bool :=
  let (key, boolValue) := entry
  let lightIdStr := (gateKeyToLightId key).getD key
  match lookupLight lightIdStr with
  | none => acc
  | some lid =>
    let (L, M, changed) := acc
    let M1 := M.set lid boolValue
    let desiredState := booleanToLightState boolValue
    if (L.get lid).state ≠ desiredState then
      (L.set lid { L.get lid with state := desiredState, lastUpdated := now },
       M1, true)
    else (L, M1, changed)

/-- Function `applyFirebaseGateStates` (part_001 lines 317-335): applies the fetched
boolean gate states entry by entry, then broadcasts once, tagged
`firebase:<origin>`, iff any light's phase changed.  The poll path calls it
with entries `[("light1", b1), ("light2", b2)]`
(`fetchGateStatesFromFirebase`, lines 275-278). -/
def applyFirebaseGateStates (entries : List (String × Bool)) (origin : String)
    (now : Nat) (L : Lights) (M : GateMirror) :
    Lights × GateMirror × List String :=
  let r := entries.foldl (applyGateEntry now) (L, M, false)
  (r.1, r.2.1, if r.2.2 then ["firebase:" ++ origin] else [])

/-- The `vehicles_by_type` sub-record of `vehicleData` (part_001 line 46). -/
structure VehiclesByType where
  car : Int
  truck : Int
  bus : Int
  motorcycle : Int
  emergency : Int
deriving DecidableEq, Repr

/-- The `vehicleData` record (part_001 lines 40-58), numeric JSON values
modelled as `Int`. -/
structure VehicleData where
  bspeed : Int
  cspeed : Int
  mspeed : Int
  tspeed : Int
  total_vehicles_counted : Int
  vehicles_by_type : VehiclesByType
  car_count : Int
  truck_count : Int
  bus_count : Int
  motorcycle_count : Int
  emergency_count : Int
  vehicles_waiting : Int
  priority_vehicles : Int
  green_light_duration : Int
  vehicles_per_minute : Int
  anomalies : List String
  timestamp : Nat
deriving DecidableEq, Repr

/-- JS `data.x || vehicleData.x` for a numeric field: keeps the prior value
when the incoming one is absent (`undefined`) or falsy (`0`). -/
def truthyOr (incoming : Option Int) (prior : Int) : Int :=
  match incoming with
  | some v => if v = 0 then prior else v
  | none => prior

/-- The `traffic_light` topic branch of the MQTT message handler
(part_001 lines 184-194): merges only the three fields, truthy-replace,
stamps `timestamp`, broadcasts once. -/
def applyTrafficLightMessage (gld vw pv : Option Int) (now : Nat)
    (vd : VehicleData) : VehicleData × List String :=
  ({ vd with
      green_light_duration := truthyOr gld vd.green_light_duration
      vehicles_waiting := truthyOr vw vd.vehicles_waiting
      priority_vehicles := truthyOr pv vd.priority_vehicles
      timestamp := now },
   ["mqtt:traffic-light"])

/-- The `speeds` topic branch of the MQTT message handler (part_001
lines 195-206): merges only the four speed fields, truthy-replace, stamps
`timestamp`, broadcasts once. -/
def applySpeedsMessage (bs cs ms ts : Option Int) (now : Nat)
    (vd : VehicleData) : VehicleData × List String :=
  ({ vd with
      bspeed := truthyOr bs vd.bspeed
      cspeed := truthyOr cs vd.cspeed
      mspeed := truthyOr ms vd.mspeed
      tspeed := truthyOr ts vd.tspeed
      timestamp := now },
   ["mqtt:speeds"])

/-- The five per-vehicle-type subtopics (`topic.split('/').pop()` over the
subscribed subtopics, part_001 lines 148-157). -/
inductive Category where
  | car
  | truck
  | bus
  | motorcycle
  | emergency
deriving DecidableEq, Repr

def Category.str : Category → String
  | .car => "car"
  | .truck => "truck"
  | .bus => "bus"
  | .motorcycle => "motorcycle"
  | .emergency => "emergency"

def VehiclesByType.set (v : VehiclesByType) : Category → Int → VehiclesByType
  | .car, c => { v with car := c }
  | .truck, c => { v with truck := c }
  | .bus, c => { v with bus := c }
  | .motorcycle, c => { v with motorcycle := c }
  | .emergency, c => { v with emergency := c }

/-- Write `vehicleData[vehicleType + '_count'] = count`. -/
def VehicleData.setCountAlias (vd : VehicleData) : Category → Int → VehicleData
  | .car, c => { vd with car_count := c }
  | .truck, c => { vd with truck_count := c }
  | .bus, c => { vd with bus_count := c }
  | .motorcycle, c => { vd with motorcycle_count := c }
  | .emergency, c => { vd with emergency_count := c }

/-- The per-vehicle-type branch of the MQTT message handler (part_001
lines 207-217): if `data.count !== undefined`, writes the
`vehicles_by_type` entry and the scalar alias, stamps `timestamp`,
broadcasts once; otherwise does nothing. -/
def applyPerTypeMessage (cat : Category) (count : Option Int) (now : Nat)
    (vd : VehicleData) : VehicleData × List String :=
  match count with
  | none => (vd, [])
  | some c =>
    let vd1 := { vd with vehicles_by_type := vd.vehicles_by_type.set cat c }
    let vd2 := vd1.setCountAlias cat c
    ({ vd2 with timestamp := now }, ["mqtt:" ++ cat.str ++ "-count"])

/-- One SSE subscriber (part_001 lines 105-121): the opaque id, and whether
a `res.write` to it succeeds (`alive = false` models the write throwing). -/
structure SSEClient where
  id : Nat
  alive : Bool
deriving DecidableEq, Repr

/-- The `sseClients.forEach` loop of `broadcastStateUpdate` (part_001
lines 94-102), processed in registry order: each client gets exactly one
write attempt; a throwing write deletes that client from the registry and
the loop continues.  Returns (surviving registry, successful deliveries,
write attempts in order). -/
def broadcastLoop (payload : String) :
    List SSEClient → List SSEClient × List (Nat × String) × List Nat
  | [] => ([], [], [])
  | c :: rest =>
    let r := broadcastLoop payload rest
    if c.alive then (c :: r.1, (c.id, payload) :: r.2.1, c.id :: r.2.2)
    else (r.1, r.2.1, c.id :: r.2.2)

/-- Function `broadcastStateUpdate` (part_001 lines 89-103): returns early when the
registry is empty, else serializes the payload once and fans out. -/
def broadcastStateUpdate (clients : List SSEClient) (payload : String) :
    List SSEClient × List (Nat × String) × List Nat :=
  if clients.isEmpty then (clients, [], [])
  else broadcastLoop payload clients

/-! ## Helper lemmas -/

theorem Lights.get_set_same (L : Lights) (lid : LightId) (l : Light) :
    (L.set lid l).get lid = l := by
  cases lid <;> rfl

theorem Lights.get_set_of_ne (L : Lights) (lid lid2 : LightId) (l : Light)
    (h : lid ≠ lid2) : (L.set lid l).get lid2 = L.get lid2 := by
  cases lid <;> cases lid2 <;> first | rfl | exact absurd rfl h

theorem LightId.other_ne (lid : LightId) : lid.other ≠ lid := by
  cases lid <;> simp [LightId.other]

theorem LightId.ne_other (lid : LightId) : lid ≠ lid.other := by
  cases lid <;> simp [LightId.other]

theorem lookupLight_str (lid : LightId) : lookupLight lid.str = some lid := by
  cases lid <;> rfl

theorem controlLight_str (lid : LightId) (action : String) (now : Nat) (L : Lights) :
    controlLight lid.str action now L = some (controlLightOn lid lid.str action now L) := by
  cases lid <;> rfl

/-- Example lights value with light1 GREEN (for concrete evaluations). -/
def exLightsGreen : Lights :=
  { light1 := { state := .green, direction := "inbound", lastUpdated := 0 }
    light2 := { state := .red, direction := "outbound", lastUpdated := 0 } }

/-- Example lights value with both lights RED (for concrete evaluations). -/
def exLightsRed : Lights :=
  { light1 := { state := .red, direction := "inbound", lastUpdated := 0 }
    light2 := { state := .red, direction := "outbound", lastUpdated := 0 } }

/-! ## C1 -/

/-- C1 counterexample: with light1 already GREEN, the 'green' command still
performs the immediate phase write — light1 is set to YELLOW and its
lastUpdated is overwritten, contradicting the claim that no immediate phase
write occurs on an already-GREEN signal. -/
theorem C1_counterexample :
    exLightsGreen.light1.state = .green ∧
    (controlLight "light1" "green" 5 exLightsGreen).map
        (fun r => ((r.lights.get .light1).state, (r.lights.get .light1).lastUpdated)) =
      some (.yellow, 5) :=
  ⟨rfl, rfl⟩

/-- C1 amended: the immediate step of the 'green' command is performed
unconditionally — the targeted signal's phase is set to YELLOW and its
lastUpdated to now regardless of its current phase (including when it is
already GREEN); the paired signal is set to YELLOW exactly when it is
currently GREEN. -/
theorem C1_green_immediate_unconditional (lid : LightId) (L : Lights) (now : Nat) :
    (controlLight lid.str "green" now L).map
        (fun r => ((r.lights.get lid).state, (r.lights.get lid).lastUpdated,
                   (r.lights.get lid.other).state)) =
      some (.yellow, now,
        if (L.get lid.other).state = .green then .yellow else (L.get lid.other).state) := by
  cases lid <;>
    simp only [controlLight, lookupLight, controlLightOn, LightId.str, LightId.other,
      Lights.get, Lights.set, String.reduceEq, reduceIte, Option.map_some'] <;>
    split <;> simp_all

/-! ## C2 -/

/-- C2 counterexample: with light1 already RED, the 'red' command immediately
sets light1 to YELLOW — a phase other than RED is observable between the
command and its delayed completion. -/
theorem C2_counterexample :
    exLightsRed.light1.state = .red ∧
    (controlLight "light1" "red" 3 exLightsRed).map
        (fun r => (r.lights.get .light1).state) = some .yellow :=
  ⟨rfl, rfl⟩

/-- C2 amended: issuing the 'red' command on a signal that is already RED is
not phase-silent: the signal is immediately set to YELLOW (observable until
the completion fires), one completion is scheduled, and that completion
returns the signal to RED — the terminal phase equals the original RED, but
an intermediate YELLOW is observable. -/
theorem C2_red_on_red_transits_yellow (lid : LightId) (L : Lights) (now later : Nat)
    (h : (L.get lid).state = .red) :
    (controlLight lid.str "red" now L).map
        (fun r => ((r.lights.get lid).state, r.pending,
          ((runPending (.toRed lid lid.str) later r.lights).lights.get lid).state)) =
      some (.yellow, [.toRed lid lid.str], .red) := by
  cases lid <;>
    simp only [controlLight, lookupLight, controlLightOn, runPending, LightId.str,
      LightId.other, Lights.get, Lights.set, String.reduceEq, reduceIte, Option.map_some']

/-- C2 witness at a concrete already-RED state. -/
theorem C2_witness :
    exLightsRed.light1.state = .red ∧
    (controlLight LightId.light1.str "red" 3 exLightsRed).map
        (fun r => ((r.lights.get .light1).state, r.pending,
          ((runPending (.toRed .light1 LightId.light1.str) 9 r.lights).lights.get .light1).state)) =
      some (.yellow, [.toRed .light1 LightId.light1.str], .red) :=
  ⟨rfl, C2_red_on_red_transits_yellow .light1 exLightsRed 3 9 rfl⟩

/-! ## C3 -/

/-- C3 confirmed: immediately after a setGreen scheduled completion runs —
both the 'green'-action closure and the toggle-from-RED closure — the
targeted signal's phase is GREEN and the paired signal's phase is RED (in
particular the paired signal is never GREEN at that point), whatever the
lights state was when the timer fired. -/
theorem C3_setGreen_completion_pair_exclusive (lid : LightId)
    (lidStr otherStr : String) (L : Lights) (now : Nat) :
    (((runPending (.toGreen lid lidStr otherStr) now L).lights.get lid).state = .green ∧
     ((runPending (.toGreen lid lidStr otherStr) now L).lights.get lid.other).state = .red) ∧
    (((runPending (.toggleToGreen lid lidStr otherStr) now L).lights.get lid).state = .green ∧
     ((runPending (.toggleToGreen lid lidStr otherStr) now L).lights.get lid.other).state = .red) := by
  cases lid <;>
    simp only [runPending, LightId.other, Lights.get, Lights.set] <;>
    constructor <;> constructor <;> split <;> simp_all

/-! ## C4 -/

/-- Example trafficFlow value (for concrete evaluations). -/
def exFlow : TrafficFlow :=
  { mode := "automatic", currentDirection := "inbound", lastChanged := 0 }

/-- C4 confirmed: a flow command carrying a (truthy) direction updates
`currentDirection` and `lastChanged`, immediately sets both signals to
YELLOW with one broadcast, and schedules one completion; the completion —
run against whatever lights state holds when it fires — sets both signals
to GREEN simultaneously, pushes true externally for both signals, and
broadcasts again: both signals report GREEN after completion. -/
theorem C4_flow_direction_both_green (mode : Option String) (d : String)
    (hd : d ≠ "") (F : TrafficFlow) (L : Lights) (now later : Nat) (M : Lights) :
    (trafficFlowHandler mode (some d) now F L).flow.currentDirection = d ∧
    (trafficFlowHandler mode (some d) now F L).flow.lastChanged = now ∧
    (trafficFlowHandler mode (some d) now F L).lights.light1.state = .yellow ∧
    (trafficFlowHandler mode (some d) now F L).lights.light2.state = .yellow ∧
    (trafficFlowHandler mode (some d) now F L).lights.light1.lastUpdated = now ∧
    (trafficFlowHandler mode (some d) now F L).lights.light2.lastUpdated = now ∧
    (trafficFlowHandler mode (some d) now F L).broadcasts = ["traffic-flow:yellow-phase"] ∧
    (trafficFlowHandler mode (some d) now F L).pending = [.flowGreen d] ∧
    (runPending (.flowGreen d) later M).lights.light1.state = .green ∧
    (runPending (.flowGreen d) later M).lights.light2.state = .green ∧
    (runPending (.flowGreen d) later M).pushes = [("light1", true), ("light2", true)] ∧
    (runPending (.flowGreen d) later M).broadcasts = ["traffic-flow:" ++ d] := by
  simp [trafficFlowHandler, runPending, hd]

/-- C4 witness at a concrete direction change. -/
theorem C4_witness :
    (trafficFlowHandler none (some "outbound") 4 exFlow exLightsRed).flow.currentDirection =
      "outbound" :=
  (C4_flow_direction_both_green none "outbound" (by decide) exFlow exLightsRed 4 9
    exLightsRed).1

/-! ## C5 -/

/-- C5 confirmed: applying a poll result of two booleans maps true to GREEN
and false to RED; each signal whose mapped phase differs from the stored one
is assigned the new phase directly with `lastUpdated := now` (the others are
left entirely unchanged), the mirror records both booleans, and the
broadcast list is exactly one firebase-tagged entry when at least one signal
changed and empty when none did. -/
theorem C5_external_sync (b1 b2 : Bool) (origin : String) (now : Nat)
    (L : Lights) (M : GateMirror) :
    applyFirebaseGateStates [("light1", b1), ("light2", b2)] origin now L M =
      ({ light1 :=
           if L.light1.state = booleanToLightState b1 then L.light1
           else { L.light1 with state := booleanToLightState b1, lastUpdated := now }
         light2 :=
           if L.light2.state = booleanToLightState b2 then L.light2
           else { L.light2 with state := booleanToLightState b2, lastUpdated := now } },
       { light1 := b1, light2 := b2 },
       if L.light1.state ≠ booleanToLightState b1 ∨ L.light2.state ≠ booleanToLightState b2
         then ["firebase:" ++ origin] else []) := by
  cases b1 <;> cases b2 <;>
    simp [applyFirebaseGateStates, applyGateEntry, gateKeyToLightId, lookupLight,
      booleanToLightState, GateMirror.set, Lights.get, Lights.set] <;>
    split <;> split <;> simp_all

/-! ## C6 -/

/-- C6 counterexample: a flow-control command carrying only a mode (no
direction) successfully mutates `trafficFlow.mode` yet triggers no
broadcast — refuting the claim that every successful State Store mutation
triggers a broadcast. -/
theorem C6_counterexample :
    (trafficFlowHandler (some "manual") none 7 exFlow exLightsRed).flow.mode = "manual" ∧
    exFlow.mode ≠ "manual" ∧
    (trafficFlowHandler (some "manual") none 7 exFlow exLightsRed).broadcasts = [] ∧
    (trafficFlowHandler (some "manual") none 7 exFlow exLightsRed).pending = [] :=
  ⟨rfl, by decide, rfl, rfl⟩

/-- C6 amended: a flow-control command carrying only a (truthy) mode updates
`FlowDirective.mode` but triggers no broadcast and schedules no completion;
on the flow path a broadcast happens only when a direction is present. -/
theorem C6_mode_only_no_broadcast (m : String) (hm : m ≠ "")
    (F : TrafficFlow) (L : Lights) (now : Nat) :
    trafficFlowHandler (some m) none now F L =
      { flow := { F with mode := m }, lights := L, broadcasts := [], pending := [] } := by
  simp [trafficFlowHandler, hm]

/-- C6 witness at a concrete mode-only command. -/
theorem C6_witness :
    trafficFlowHandler (some "manual") none 7 exFlow exLightsRed =
      { flow := { exFlow with mode := "manual" }, lights := exLightsRed,
        broadcasts := [], pending := [] } :=
  C6_mode_only_no_broadcast "manual" (by decide) exFlow exLightsRed 7

/-! ## C7 -/

/-- The truthy-replace rule as the spec words it: the stored value is
replaced exactly when the incoming value is present and truthy (nonzero);
an incoming zero or an absent key leaves the prior value. -/
def truthyReplaceSpec (incoming : Option Int) (prior result : Int) : Prop :=
  (∀ v, incoming = some v → v ≠ 0 → result = v) ∧
  ((incoming = some 0 ∨ incoming = none) → result = prior)

theorem truthyOr_meets_spec (incoming : Option Int) (prior : Int) :
    truthyReplaceSpec incoming prior (truthyOr incoming prior) := by
  constructor
  · intro v hv hnz
    subst hv
    simp [truthyOr, hnz]
  · intro h
    rcases h with h | h <;> subst h <;> simp [truthyOr]

/-- C7 confirmed: in the LIGHT_CONTROL (traffic_light topic) merge each of
`green_light_duration`, `vehicles_waiting`, `priority_vehicles`, and in the
SPEEDS merge each of the four per-category speeds, is replaced by the
incoming value exactly when that value is present and truthy; an incoming
zero or an absent key leaves the prior stored value unchanged. -/
theorem C7_truthy_replace (gld vw pv bs cs ms ts : Option Int) (now : Nat)
    (vd : VehicleData) :
    truthyReplaceSpec gld vd.green_light_duration
      ((applyTrafficLightMessage gld vw pv now vd).1.green_light_duration) ∧
    truthyReplaceSpec vw vd.vehicles_waiting
      ((applyTrafficLightMessage gld vw pv now vd).1.vehicles_waiting) ∧
    truthyReplaceSpec pv vd.priority_vehicles
      ((applyTrafficLightMessage gld vw pv now vd).1.priority_vehicles) ∧
    truthyReplaceSpec bs vd.bspeed
      ((applySpeedsMessage bs cs ms ts now vd).1.bspeed) ∧
    truthyReplaceSpec cs vd.cspeed
      ((applySpeedsMessage bs cs ms ts now vd).1.cspeed) ∧
    truthyReplaceSpec ms vd.mspeed
      ((applySpeedsMessage bs cs ms ts now vd).1.mspeed) ∧
    truthyReplaceSpec ts vd.tspeed
      ((applySpeedsMessage bs cs ms ts now vd).1.tspeed) :=
  ⟨truthyOr_meets_spec _ _, truthyOr_meets_spec _ _, truthyOr_meets_spec _ _,
   truthyOr_meets_spec _ _, truthyOr_meets_spec _ _, truthyOr_meets_spec _ _,
   truthyOr_meets_spec _ _⟩

/-! ## C8 -/

/-- Example vehicleData value with timestamp 0 (for concrete evaluations). -/
def exVD : VehicleData :=
  { bspeed := 1, cspeed := 2, mspeed := 3, tspeed := 4
    total_vehicles_counted := 10
    vehicles_by_type := { car := 1, truck := 1, bus := 1, motorcycle := 1, emergency := 1 }
    car_count := 1, truck_count := 1, bus_count := 1, motorcycle_count := 1
    emergency_count := 1
    vehicles_waiting := 2, priority_vehicles := 0
    green_light_duration := 20, vehicles_per_minute := 3
    anomalies := [], timestamp := 0 }

/-- C8 counterexample: applying a truck message with count 7 also changes
`timestamp` — a TelemetrySnapshot field other than the truck count and its
scalar alias — so not every other field is unchanged. -/
theorem C8_counterexample :
    (applyPerTypeMessage .truck (some 7) 1 exVD).1.timestamp ≠ exVD.timestamp := by
  decide

/-- C8 amended: a PER_TYPE truck message with a defined count updates
exactly the truck entry of `vehicles_by_type`, the `truck_count` scalar
alias, and `timestamp`; every other field of the snapshot is unchanged. -/
theorem C8_truck_frame (vd : VehicleData) (c : Int) (now : Nat) :
    applyPerTypeMessage .truck (some c) now vd =
      ({ vd with vehicles_by_type := { vd.vehicles_by_type with truck := c }
                 truck_count := c
                 timestamp := now },
       ["mqtt:truck-count"]) := by
  simp [applyPerTypeMessage, VehiclesByType.set, VehicleData.setCountAlias, Category.str]

/-! ## C9 -/

theorem broadcastLoop_eq (payload : String) (clients : List SSEClient) :
    broadcastLoop payload clients =
      (clients.filter (fun c => c.alive),
       (clients.filter (fun c => c.alive)).map (fun c => (c.id, payload)),
       clients.map (fun c => c.id)) := by
  induction clients with
  | nil => rfl
  | cons c rest ih =>
    cases hc : c.alive <;> simp [broadcastLoop, ih, hc, List.filter_cons]

/-- C9 confirmed: in one broadcast call every registered connection gets
exactly one write attempt, in registry order (a failed send is never
retried); the surviving registry is exactly the connections whose write
succeeded (a failure removes only the failing connection), and every
connection whose write succeeds receives the same payload — a failure never
prevents delivery to the others. -/
theorem C9_send_failure_isolated (clients : List SSEClient) (payload : String) :
    broadcastStateUpdate clients payload =
      (clients.filter (fun c => c.alive),
       (clients.filter (fun c => c.alive)).map (fun c => (c.id, payload)),
       clients.map (fun c => c.id)) := by
  rw [broadcastStateUpdate]
  split
  · rename_i h
    rw [List.isEmpty_iff] at h
    subst h
    rfl
  · exact broadcastLoop_eq payload clients

/-! ## C10 -/

/-- C10 confirmed: for a 'green' or 'red' command on an existing signal, and
for 'toggle' when the signal is GREEN or RED, the HTTP response (serialized
from the state as it stands when `res.json` runs, before any scheduled
completion fires) always reports the targeted signal's phase as YELLOW,
never the terminal GREEN or RED. -/
theorem C10_response_reports_yellow (lid : LightId) (action : String)
    (L : Lights) (now : Nat)
    (h : action = "green" ∨ action = "red" ∨
      (action = "toggle" ∧ (L.get lid).state ≠ .yellow)) :
    (controlLight lid.str action now L).map
        (fun r => (r.lights.get lid).state) = some .yellow := by
  rw [controlLight_str, Option.map_some']
  rcases h with h | h | ⟨h, hs⟩ <;> subst h
  · cases lid <;>
      simp_all only [controlLightOn, LightId.str, LightId.other, Lights.get, Lights.set,
        String.reduceEq, reduceIte] <;>
      (try split) <;> simp_all
  · cases lid <;>
      simp_all [controlLightOn, LightId.str, LightId.other, Lights.get, Lights.set]
  · cases hp : (L.get lid).state <;> cases lid <;>
      simp_all only [controlLightOn, LightId.str, LightId.other, Lights.get, Lights.set,
        String.reduceEq, reduceIte] <;>
      (try split) <;> (try split) <;> simp_all

/-- C10 witness at a concrete 'green' command. -/
theorem C10_witness :
    (controlLight LightId.light1.str "green" 2 exLightsRed).map
        (fun r => (r.lights.get .light1).state) = some .yellow :=
  C10_response_reports_yellow .light1 "green" exLightsRed 2 (Or.inl rfl)
